import Mathlib

/-!
Verification of the growpart partition-resizing core (cc_growpart):
device resolution (devent2dev, device_part_info), backend selection
(resizer_factory over RESIZERS), the two resize-backend protocols
(ResizeGrowPart, ResizeGpart) with their availability probes, and the
per-device orchestration loop (resize_devices).

The OS surface consulted by the code (mount table, sysfs, stat, realpath,
file contents, platform flags) is abstracted into an explicit environment
record `SysEnv`; external subprocess invocations are abstracted into
outcome values (`SubpOutcome`) fed to a faithful model of cloudinit
subp.subp. Python exceptions are modelled by the `PyErr` type and
fallible code returns `Except PyErr`.
-/

/-- Python exception kinds raised or caught by the growpart core.
`resizeFailed` is the module-level ResizeFailedException; `processError`
is subp.ProcessExecutionError, whose exit_code is some code when the
child ran and none when the tool could not be executed at all (the
source prints a dash in that case). -/
inductive PyErr where
  | valueError (msg : String)
  | typeError (msg : String)
  | attributeError (msg : String)
  | processError (exit_code : Option Int) (msg : String)
  | resizeFailed (msg : String)
deriving DecidableEq

/-- Result of os.stat: only the file-type bits the code inspects. -/
structure StatRes where
  isBlk : Bool
  isChr : Bool
deriving DecidableEq

/-- The OS surface consulted by cc_growpart, as an explicit environment.
os_stat returns the stat result or the OSError message. -/
structure SysEnv where
  get_mount_info : String → Option (String × String × String)
  is_container : Bool
  get_cmdline : String
  rootdev_from_cmdline : String → Option String
  path_exists : String → Bool
  os_stat : String → Except String StatRes
  is_FreeBSD : Bool
  is_DragonFlyBSD : Bool
  find_freebsd_part : String → String
  find_dragonflybsd_part : String → String
  realpath : String → String
  load_file : String → String

/-- Python str.startswith, computed on the character list (the core
string primitive is implemented with well-founded recursion over byte
positions, which blocks kernel evaluation of closed terms). -/
def strStartsWith (s pre : String) : Bool :=
  pre.data.isPrefixOf s.data

/-- Python os.path.exists: genericpath.exists catches OSError and
ValueError from os.stat and returns False, but a None argument makes
os.stat raise TypeError, which it does not catch. -/
def os_path_exists (env : SysEnv) : Option String → Except PyErr Bool
  | none =>
    Except.error (PyErr.typeError
      "stat: path should be string, bytes, os.PathLike or integer, not NoneType")
  | some p => Except.ok (env.path_exists p)

/-- devent2dev from cc_growpart. A devent that already starts with /dev/
is returned unchanged; otherwise the mount table is consulted. A
mount-table result equal to the /dev/root placeholder (outside a
container) is re-resolved from the kernel command line; when that yields
None, the source then evaluates os.path.exists(dev) with dev still None,
so the TypeError from os_path_exists is raised before either the
return-dev branch or the ValueError branch can run (both are dead code,
conflated into the error branch below). -/
def devent2dev (env : SysEnv) (devent : String) : Except PyErr String :=
  if strStartsWith devent "/dev/" then
    Except.ok devent
  else
    match env.get_mount_info devent with
    | none =>
      Except.error (PyErr.valueError
        "Could not determine device of \x27%s\x27 % dev_ent")
    | some result =>
      let dev := result.1
      let container := env.is_container
      if dev == "/dev/root" && !container then
        match env.rootdev_from_cmdline env.get_cmdline with
        | some d => Except.ok d
        | none =>
          match os_path_exists env none with
          | Except.error e => Except.error e
          | Except.ok _ =>
            Except.error (PyErr.valueError
              "Unable to find device \x27/dev/root\x27")
      else
        Except.ok dev

namespace RESIZE

def SKIPPED : String := "SKIPPED"

def CHANGED : String := "CHANGED"

def NOCHANGE : String := "NOCHANGE"

def FAILED : String := "FAILED"

end RESIZE

/-- Python str.rstrip with no argument: drop trailing whitespace. -/
def rstrip (s : String) : String :=
  ⟨(s.data.reverse.dropWhile Char.isWhitespace).reverse⟩

/-- Python os.path.basename: everything after the last slash. -/
def basename (p : String) : String :=
  ⟨(p.data.reverse.takeWhile (fun c => c ≠ '/')).reverse⟩

/-- Python os.path.dirname: everything up to and including the last
slash, with trailing slashes stripped unless the head is all slashes. -/
def dirname (p : String) : String :=
  let cs := p.data
  let tailLen := (cs.reverse.takeWhile (fun c => c ≠ '/')).length
  let head := cs.take (cs.length - tailLen)
  if head.all (fun c => c = '/') then ⟨head⟩
  else ⟨(head.reverse.dropWhile (fun c => c = '/')).reverse⟩

/-- Core of the BSD partition-suffix pattern of device_part_info,
matched against one candidate end position: the character list must be
/dev/ ++ body ++ sep ++ digit with body nonempty and (since the regex
dot does not match a newline) newline-free; group 1 is everything
before the final separator character, group 2 the single final digit.
The separator position is forced to be the second-to-last character
because the digit class matches exactly one character. -/
def matchPartSuffixCore (sep : Char) (cs : List Char) :
    Option (String × String) :=
  let n := cs.length
  if "/dev/".data.isPrefixOf cs && decide (8 ≤ n) && (cs.getD (n - 2) ' ' == sep)
      && (cs.getD (n - 1) ' ').isDigit && !((cs.take (n - 2)).contains '\n') then
    some (⟨cs.take (n - 2)⟩, ⟨cs.drop (n - 1)⟩)
  else
    none

/-- Anchored search of the BSD partition-suffix pattern used in
device_part_info, a regex of shape caret (/dev/ dot-plus) SEP ([0-9])
dollar. The caret pins the match to the start of the subject, and the
dollar anchor of Python re (without MULTILINE) matches at the end of
the subject or just before a newline that ends the subject, so the
pattern is tried against the full character list and, when the subject
ends with a newline, also against the list with that single final
newline removed. The two attempts can never both succeed (one needs a
final digit where the other has the final newline). -/
def matchPartSuffix (sep : Char) (s : String) : Option (String × String) :=
  match matchPartSuffixCore sep s.data with
  | some m => some m
  | none =>
    if s.data.getLast? == some '\n' then
      matchPartSuffixCore sep s.data.dropLast
    else
      none

/-- device_part_info from cc_growpart: map a /dev entry to
(parent disk path, partition number string). On FreeBSD and
DragonFlyBSD the partition suffix is parsed by a single-digit regex;
a failed match means m is None and m.group raises AttributeError.
On Linux the sysfs topology is walked. -/
def device_part_info (env : SysEnv) (devpath : String) :
    Except PyErr (String × String) :=
  let rpath := env.realpath devpath
  let bname := basename rpath
  let syspath := "/sys/class/block/" ++ bname
  if env.is_FreeBSD then
    let freebsd_part := "/dev/" ++ env.find_freebsd_part devpath
    match matchPartSuffix 'p' freebsd_part with
    | some m => Except.ok m
    | none =>
      Except.error (PyErr.attributeError
        "\x27NoneType\x27 object has no attribute \x27group\x27")
  else if env.is_DragonFlyBSD then
    let dragonflybsd_part := "/dev/" ++ env.find_dragonflybsd_part devpath
    match matchPartSuffix 's' dragonflybsd_part with
    | some m => Except.ok m
    | none =>
      Except.error (PyErr.attributeError
        "\x27NoneType\x27 object has no attribute \x27group\x27")
  else if !(env.path_exists syspath) then
    Except.error (PyErr.valueError
      (devpath ++ " had no syspath (" ++ syspath ++ ")"))
  else
    let ptpath := syspath ++ "/partition"
    if !(env.path_exists ptpath) then
      Except.error (PyErr.typeError (devpath ++ " not a partition"))
    else
      let ptnum := rstrip (env.load_file ptpath)
      let rsyspath := env.realpath syspath
      let disksyspath := dirname rsyspath
      let diskmajmin := rstrip (env.load_file (disksyspath ++ "/dev"))
      let diskdevpath := env.realpath ("/dev/block/" ++ diskmajmin)
      Except.ok (diskdevpath, ptnum)

/-- Per-entry body of the resize_devices loop. Each Python try/except
block is modelled by a match that converts exactly the caught exception
kinds into SKIPPED or FAILED records and lets every other kind
propagate: ValueError around devent2dev, OSError around os.stat,
TypeError and ValueError around device_part_info, and the module
ResizeFailedException around resizer.resize. -/
def resize_entry (env : SysEnv)
    (resizer : String → String → String → Except PyErr (Nat × Nat))
    (devent : String) : Except PyErr (String × String × String) :=
  match devent2dev env devent with
  | Except.error (PyErr.valueError m) =>
    Except.ok (devent, RESIZE.SKIPPED, "unable to convert to device: " ++ m)
  | Except.error e => Except.error e
  | Except.ok blockdev =>
    match env.os_stat blockdev with
    | Except.error m =>
      Except.ok (devent, RESIZE.SKIPPED,
        "stat of \x27" ++ blockdev ++ "\x27 failed: " ++ m)
    | Except.ok statret =>
      if !statret.isBlk && !statret.isChr then
        Except.ok (devent, RESIZE.SKIPPED,
          "device \x27" ++ blockdev ++ "\x27 not a block device")
      else
        match device_part_info env blockdev with
        | Except.error (PyErr.typeError m) =>
          Except.ok (devent, RESIZE.SKIPPED,
            "device_part_info(" ++ blockdev ++ ") failed: " ++ m)
        | Except.error (PyErr.valueError m) =>
          Except.ok (devent, RESIZE.SKIPPED,
            "device_part_info(" ++ blockdev ++ ") failed: " ++ m)
        | Except.error e => Except.error e
        | Except.ok (disk, ptnum) =>
          match resizer disk ptnum blockdev with
          | Except.ok (old, new) =>
            if old = new then
              Except.ok (devent, RESIZE.NOCHANGE,
                "no change necessary (" ++ disk ++ ", " ++ ptnum ++ ")")
            else
              Except.ok (devent, RESIZE.CHANGED,
                "changed (" ++ disk ++ ", " ++ ptnum ++ ") from "
                  ++ toString old ++ " to " ++ toString new)
          | Except.error (PyErr.resizeFailed m) =>
            Except.ok (devent, RESIZE.FAILED,
              "failed to resize: disk=" ++ disk ++ ", ptnum=" ++ ptnum
                ++ ": " ++ m)
          | Except.error e => Except.error e

/-- resize_devices from cc_growpart: process the entries in order,
appending one record per entry; an exception kind that no surrounding
except clause catches aborts the whole loop. -/
def resize_devices (env : SysEnv)
    (resizer : String → String → String → Except PyErr (Nat × Nat)) :
    List String → Except PyErr (List (String × String × String))
  | [] => Except.ok []
  | d :: rest =>
    match resize_entry env resizer d with
    | Except.error e => Except.error e
    | Except.ok record =>
      match resize_devices env resizer rest with
      | Except.error e => Except.error e
      | Except.ok l => Except.ok (record :: l)

/-- Result of a subprocess that actually ran: exit code, stdout, stderr. -/
structure SubpResult where
  rc : Int
  out : String
  err : String
deriving DecidableEq

/-- Outcome of attempting to run an external command: either the tool
could not be executed at all (OSError, converted by subp into a
ProcessExecutionError with no exit code) or it ran to completion. -/
inductive SubpOutcome where
  | execFail (msg : String)
  | ran (r : SubpResult)
deriving DecidableEq

/-- cloudinit subp.subp: raises ProcessExecutionError when the child
cannot be executed (exit_code is then none) or when the exit code is not
among the allowed rcs; otherwise returns (stdout, stderr). -/
def subp_model (o : SubpOutcome) (rcs : List Int) :
    Except PyErr (String × String) :=
  match o with
  | SubpOutcome.execFail m => Except.error (PyErr.processError none m)
  | SubpOutcome.ran r =>
    if r.rc ∈ rcs then Except.ok (r.out, r.err)
    else
      Except.error (PyErr.processError (some r.rc)
        ("Unexpected exit code " ++ toString r.rc))

/-- Substring search: does pat occur contiguously in the list. -/
def containsSub (pat : List Char) : List Char → Bool
  | [] => pat.isEmpty
  | c :: rest => pat.isPrefixOf (c :: rest) || containsSub pat rest

/-- Search for the pattern dash dash update backslash-s-plus: an
occurrence of the literal option name followed by at least one
whitespace character. -/
def hasUpdateFlagAux : List Char → Bool
  | [] => false
  | c :: rest =>
    ("--update".data.isPrefixOf (c :: rest) &&
      (match (c :: rest).drop 8 with
       | d :: _ => d.isWhitespace
       | [] => false)) || hasUpdateFlagAux rest

/-- The regex probe of ResizeGrowPart.available on growpart help stdout. -/
def hasUpdateFlag (out : String) : Bool :=
  hasUpdateFlagAux out.data

/-- The regex probe of ResizeGpart.available on gpart help stderr: the
literal text of a recovery subcommand usage line. -/
def hasRecoverSig (err : String) : Bool :=
  containsSub "gpart recover ".data err.data

/-- ResizeGrowPart.available: run growpart help (default allowed exit
code 0); a ProcessExecutionError is caught and yields false, and so does
output without the update-option signature. subp_model only ever throws
processError, so the except clause covers every error the body can
raise: the probe is total and never propagates an exception. -/
def growpart_available (o : SubpOutcome) : Bool :=
  match subp_model o [0] with
  | Except.ok res => hasUpdateFlag res.1
  | Except.error _ => false

/-- ResizeGpart.available: run gpart help accepting exit codes 0 and 1;
a ProcessExecutionError is caught and yields false, and so does stderr
without the recovery-subcommand signature. As with growpart_available,
the except clause covers every error the body can raise. -/
def gpart_available (o : SubpOutcome) : Bool :=
  match subp_model o [0, 1] with
  | Except.ok res => hasRecoverSig res.2
  | Except.error _ => false

/-- The two registered resize backends, in registration order. -/
inductive ResizerKind where
  | growpart
  | gpart
deriving DecidableEq

/-- The module-level RESIZERS registry: growpart first, then gpart. -/
def RESIZERS : List (String × ResizerKind) :=
  [("growpart", ResizerKind.growpart), ("gpart", ResizerKind.gpart)]

/-- resizer_factory from cc_growpart, with each variant instance
abstracted to its kind and availability probing abstracted to the
function available. Mode auto scans RESIZERS in order and takes the
first available backend, raising ValueError when none is; an explicit
mode is looked up in the registry dict, raising TypeError for an
unknown name and ValueError for a known but unavailable backend. -/
def resizer_factory (available : ResizerKind → Bool) (mode : String) :
    Except PyErr ResizerKind :=
  if mode = "auto" then
    match RESIZERS.find? (fun p => available p.2) with
    | some p => Except.ok p.2
    | none => Except.error (PyErr.valueError "No resizers available")
  else
    match RESIZERS.lookup mode with
    | none => Except.error (PyErr.typeError ("unknown resize mode " ++ mode))
    | some k =>
      if available k then Except.ok k
      else Except.error (PyErr.valueError ("mode " ++ mode ++ " not available"))

/-- Observable events of a backend resize call: a get_size read of a
device (seek to end) with its result, or an external command run. -/
inductive TraceEv where
  | sizeRead (path : String) (result : Nat)
  | run (cmd : List String)
deriving DecidableEq

/-- World for one ResizeGrowPart.resize call: the two get_size reads of
the partition device and the outcomes of the dry-run and apply
commands. -/
structure GrowpartWorld where
  size1 : Nat
  size2 : Nat
  dryRun : SubpOutcome
  applyRun : SubpOutcome
deriving DecidableEq

/-- The message str(e) of an exception, as wrapped by
ResizeFailedException(e). -/
def pyErrMsg : PyErr → String
  | PyErr.valueError m => m
  | PyErr.typeError m => m
  | PyErr.attributeError m => m
  | PyErr.processError _ m => m
  | PyErr.resizeFailed m => m

/-- ResizeGrowPart.resize: read the size, run growpart dry-run (a
ProcessExecutionError with exit code 1 means nothing to do and returns
(before, before); any other ProcessExecutionError becomes
ResizeFailedException), then run growpart for real (any
ProcessExecutionError becomes ResizeFailedException) and read the size
again. The returned trace lists the size reads and commands issued in
order. The temporary-directory handling around the commands has no
bearing on the result and is not modelled. -/
def growpart_resize (w : GrowpartWorld) (diskdev partnum partdev : String) :
    Except PyErr (Nat × Nat) × List TraceEv :=
  let before := w.size1
  let dryCmd := ["growpart", "--dry-run", diskdev, partnum]
  match subp_model w.dryRun [0] with
  | Except.error e =>
    match e with
    | PyErr.processError c m =>
      if c ≠ some 1 then
        (Except.error (PyErr.resizeFailed m),
         [TraceEv.sizeRead partdev w.size1, TraceEv.run dryCmd])
      else
        (Except.ok (before, before),
         [TraceEv.sizeRead partdev w.size1, TraceEv.run dryCmd])
    | _ =>
      (Except.error e, [TraceEv.sizeRead partdev w.size1, TraceEv.run dryCmd])
  | Except.ok _ =>
    match subp_model w.applyRun [0] with
    | Except.error e =>
      (Except.error (PyErr.resizeFailed (pyErrMsg e)),
       [TraceEv.sizeRead partdev w.size1, TraceEv.run dryCmd,
        TraceEv.run ["growpart", diskdev, partnum]])
    | Except.ok _ =>
      (Except.ok (before, w.size2),
       [TraceEv.sizeRead partdev w.size1, TraceEv.run dryCmd,
        TraceEv.run ["growpart", diskdev, partnum],
        TraceEv.sizeRead partdev w.size2])

/-- World for one ResizeGpart.resize call: the outcomes of the recover
and resize commands and the two get_size reads. -/
structure GpartWorld where
  recoverRun : SubpOutcome
  resizeRun : SubpOutcome
  size1 : Nat
  size2 : Nat
deriving DecidableEq

/-- The tail of ResizeGpart.resize after the recover step: read the
size, run gpart resize scoped to the partition index (any
ProcessExecutionError becomes ResizeFailedException), read the size
again. -/
def gpart_resize_after_recover (w : GpartWorld)
    (diskdev partnum partdev : String) :
    Except PyErr (Nat × Nat) × List TraceEv :=
  let before := w.size1
  let resizeCmd := ["gpart", "resize", "-i", partnum, diskdev]
  match subp_model w.resizeRun [0] with
  | Except.error e =>
    (Except.error (PyErr.resizeFailed (pyErrMsg e)),
     [TraceEv.sizeRead partdev w.size1, TraceEv.run resizeCmd])
  | Except.ok _ =>
    (Except.ok (before, w.size2),
     [TraceEv.sizeRead partdev w.size1, TraceEv.run resizeCmd,
      TraceEv.sizeRead partdev w.size2])

/-- ResizeGpart.resize: run gpart recover on the whole disk first — a
ProcessExecutionError with nonzero exit code (or with no exit code at
all, which compares unequal to zero) becomes ResizeFailedException,
while an exit code of exactly zero would be swallowed by the guard in
the source — and only then read the size and run the scoped resize. -/
def gpart_resize (w : GpartWorld) (diskdev partnum partdev : String) :
    Except PyErr (Nat × Nat) × List TraceEv :=
  let recoverCmd := ["gpart", "recover", diskdev]
  match subp_model w.recoverRun [0] with
  | Except.error e =>
    match e with
    | PyErr.processError c m =>
      if c ≠ some 0 then
        (Except.error (PyErr.resizeFailed m), [TraceEv.run recoverCmd])
      else
        let rest := gpart_resize_after_recover w diskdev partnum partdev
        (rest.1, TraceEv.run recoverCmd :: rest.2)
    | _ => (Except.error e, [TraceEv.run recoverCmd])
  | Except.ok _ =>
    let rest := gpart_resize_after_recover w diskdev partnum partdev
    (rest.1, TraceEv.run recoverCmd :: rest.2)

/-- A small concrete Linux environment in which /dev/vda1 resolves to
partition 1 of /dev/vda through sysfs. -/
def linuxEnv : SysEnv :=
  { get_mount_info := fun _ => none
  , is_container := false
  , get_cmdline := "BOOT_IMAGE=/vmlinuz root=/dev/vda1 ro"
  , rootdev_from_cmdline := fun _ => none
  , path_exists := fun p =>
      p = "/sys/class/block/vda1" || p = "/sys/class/block/vda1/partition"
  , os_stat := fun _ => Except.ok { isBlk := true, isChr := false }
  , is_FreeBSD := false
  , is_DragonFlyBSD := false
  , find_freebsd_part := fun _ => ""
  , find_dragonflybsd_part := fun _ => ""
  , realpath := fun p =>
      if p = "/sys/class/block/vda1" then
        "/sys/devices/pci0000:00/virtio1/block/vda/vda1"
      else if p = "/dev/block/253:0" then "/dev/vda"
      else p
  , load_file := fun p =>
      if p = "/sys/class/block/vda1/partition" then "1\n"
      else if p = "/sys/devices/pci0000:00/virtio1/block/vda/dev" then "253:0\n"
      else "" }

/-- A FreeBSD environment whose device carries a two-digit partition
ordinal, so the single-digit suffix regex cannot match. -/
def freebsdEnv : SysEnv :=
  { linuxEnv with
    is_FreeBSD := true
  , find_freebsd_part := fun _ => "vtbd0p10" }

/-- An environment in which the mount table reports the generic root
placeholder for the root mount, the kernel command line yields no usable
root device, and the placeholder path itself exists on disk. -/
def rootPlaceholderEnv : SysEnv :=
  { linuxEnv with
    get_mount_info := fun m =>
      if m = "/" then some ("/dev/root", "ext4", "rw") else none
  , rootdev_from_cmdline := fun _ => none
  , path_exists := fun p => p = "/dev/root" }

/-- The resolution pipeline of resize_devices succeeds on devent: the
entry maps to blockdev, blockdev stats as a block or character device,
and device_part_info yields the given disk path and partition number,
so the loop body reaches the backend call. -/
def ResolvesTo (env : SysEnv) (devent blockdev disk ptnum : String) : Prop :=
  devent2dev env devent = Except.ok blockdev ∧
  (∃ st, env.os_stat blockdev = Except.ok st ∧
    (st.isBlk = true ∨ st.isChr = true)) ∧
  device_part_info env blockdev = Except.ok (disk, ptnum)

theorem resize_entry_fst (env : SysEnv)
    (resizer : String → String → String → Except PyErr (Nat × Nat))
    (d : String) (x : String × String × String)
    (h : resize_entry env resizer d = Except.ok x) : x.1 = d := by
  unfold resize_entry at h
  repeat' split at h
  all_goals cases h
  all_goals rfl

theorem resize_devices_ok_pointwise (env : SysEnv)
    (resizer : String → String → String → Except PyErr (Nat × Nat)) :
    ∀ (devs : List String) (out : List (String × String × String)),
      resize_devices env resizer devs = Except.ok out →
      out.map Except.ok = devs.map (resize_entry env resizer) := by
  intro devs
  induction devs with
  | nil =>
    intro out h
    unfold resize_devices at h
    cases h
    rfl
  | cons d rest ih =>
    intro out h
    unfold resize_devices at h
    cases h1 : resize_entry env resizer d with
    | error e => rw [h1] at h; cases h
    | ok v =>
      rw [h1] at h
      cases h2 : resize_devices env resizer rest with
      | error e => rw [h2] at h; cases h
      | ok l =>
        rw [h2] at h
        cases h
        simp [List.map, ih l h2, h1]

theorem resize_entry_resolved (env : SysEnv)
    (resizer : String → String → String → Except PyErr (Nat × Nat))
    (d blockdev disk ptnum : String)
    (h : ResolvesTo env d blockdev disk ptnum) :
    resize_entry env resizer d =
      match resizer disk ptnum blockdev with
      | Except.ok (old, new) =>
        if old = new then
          Except.ok (d, RESIZE.NOCHANGE,
            "no change necessary (" ++ disk ++ ", " ++ ptnum ++ ")")
        else
          Except.ok (d, RESIZE.CHANGED,
            "changed (" ++ disk ++ ", " ++ ptnum ++ ") from "
              ++ toString old ++ " to " ++ toString new)
      | Except.error (PyErr.resizeFailed m) =>
        Except.ok (d, RESIZE.FAILED,
          "failed to resize: disk=" ++ disk ++ ", ptnum=" ++ ptnum
            ++ ": " ++ m)
      | Except.error e => Except.error e := by
  obtain ⟨h1, ⟨st, h2, h3⟩, h4⟩ := h
  have hb : (!st.isBlk && !st.isChr) = false := by
    rcases h3 with h3 | h3 <;> simp [h3]
  cases hr : resizer disk ptnum blockdev with
  | ok p =>
    obtain ⟨old, new⟩ := p
    by_cases he : old = new
    · simp [resize_entry, h1, h2, hb, h4, hr, he]
    · simp [resize_entry, h1, h2, hb, h4, hr, he]
  | error e =>
    cases e <;> simp [resize_entry, h1, h2, hb, h4, hr]

theorem growpart_resize_dryrun_exit1 (w : GrowpartWorld)
    (diskdev partnum partdev : String) (out err : String)
    (hdry : w.dryRun = SubpOutcome.ran ⟨1, out, err⟩) :
    growpart_resize w diskdev partnum partdev =
      (Except.ok (w.size1, w.size1),
       [TraceEv.sizeRead partdev w.size1,
        TraceEv.run ["growpart", "--dry-run", diskdev, partnum]]) := by
  simp [growpart_resize, subp_model, hdry]

theorem matchPartSuffixCore_none_of_digit (sep : Char) (cs : List Char)
    (hsep : sep.isDigit = false)
    (hd : (cs.getD (cs.length - 2) ' ').isDigit = true) :
    matchPartSuffixCore sep cs = none := by
  have hne : ¬ (cs.getD (cs.length - 2) ' ' = sep) := by
    intro hcontra
    rw [hcontra] at hd
    rw [hd] at hsep
    cases hsep
  have hbeq : (cs.getD (cs.length - 2) ' ' == sep) = false :=
    beq_eq_false_iff_ne.mpr hne
  simp only [matchPartSuffixCore]
  rw [hbeq]
  simp

theorem matchPartSuffix_none_of_digit (sep : Char) (s : String)
    (hsep : sep.isDigit = false)
    (hd : (s.data.getD (s.data.length - 2) ' ').isDigit = true)
    (hnl : s.data.getLast? ≠ some '\n') :
    matchPartSuffix sep s = none := by
  have hcore := matchPartSuffixCore_none_of_digit sep s.data hsep hd
  have hbeq : (s.data.getLast? == some '\n') = false :=
    beq_eq_false_iff_ne.mpr hnl
  simp [matchPartSuffix, hcore, hbeq]

/-- C10: an entry that begins with /dev/ is returned verbatim by
devent2dev in every environment, so the mount table is never consulted
and the result cannot depend on it; in particular the literal entry
/dev/root is returned unchanged, and the boot-parameter re-resolution of
the root placeholder applies only to devices obtained from mount-table
lookup. -/
theorem devent2dev_dev_paths_returned_verbatim :
    (∀ (env : SysEnv) (devent : String),
      strStartsWith devent "/dev/" = true →
      devent2dev env devent = Except.ok devent) ∧
    (∀ env : SysEnv, devent2dev env "/dev/root" = Except.ok "/dev/root") := by
  constructor
  · intro env devent h
    simp [devent2dev, h]
  · intro env
    rfl

theorem devent2dev_dev_paths_returned_verbatim_witness :
    devent2dev linuxEnv "/dev/vda1" = Except.ok "/dev/vda1" :=
  devent2dev_dev_paths_returned_verbatim.1 linuxEnv "/dev/vda1" rfl

/-- C2 (code bug): with the mount table reporting the /dev/root
placeholder, no container, and the kernel command line yielding no
usable root device, devent2dev raises TypeError out of
os.path.exists(None) — the source passes the overwritten variable,
which is None at that point, instead of the placeholder path — even
though the placeholder path exists on disk (second conjunct): the code
neither returns the existing placeholder nor raises the ValueError that
the claim describes. -/
theorem devent2dev_root_placeholder_raises_typeerror :
    devent2dev rootPlaceholderEnv "/" =
      Except.error (PyErr.typeError
        "stat: path should be string, bytes, os.PathLike or integer, not NoneType") ∧
    rootPlaceholderEnv.path_exists "/dev/root" = true := by
  constructor <;> rfl

/-- C5: in auto mode resizer_factory probes RESIZERS in registration
order (growpart before gpart), returns the first backend whose probe is
true, never one whose probe is false, and raises the no-backend error
(ValueError, the spec taxonomy name NoBackendAvailableError) when
neither probe succeeds. -/
theorem resizer_factory_auto_priority (avail : ResizerKind → Bool) :
    (avail ResizerKind.growpart = true →
      resizer_factory avail "auto" = Except.ok ResizerKind.growpart) ∧
    (avail ResizerKind.growpart = false → avail ResizerKind.gpart = true →
      resizer_factory avail "auto" = Except.ok ResizerKind.gpart) ∧
    (avail ResizerKind.growpart = false → avail ResizerKind.gpart = false →
      resizer_factory avail "auto" =
        Except.error (PyErr.valueError "No resizers available")) ∧
    (∀ k, resizer_factory avail "auto" = Except.ok k → avail k = true) := by
  refine ⟨?_, ?_, ?_, ?_⟩
  · intro h
    simp [resizer_factory, RESIZERS, List.find?, h]
  · intro h1 h2
    simp [resizer_factory, RESIZERS, List.find?, h1, h2]
  · intro h1 h2
    simp [resizer_factory, RESIZERS, List.find?, h1, h2]
  · intro k h
    cases h1 : avail ResizerKind.growpart with
    | true =>
      simp [resizer_factory, RESIZERS, List.find?, h1] at h
      rw [← h]
      exact h1
    | false =>
      cases h2 : avail ResizerKind.gpart with
      | true =>
        simp [resizer_factory, RESIZERS, List.find?, h1, h2] at h
        rw [← h]
        exact h2
      | false =>
        simp [resizer_factory, RESIZERS, List.find?, h1, h2] at h

theorem resizer_factory_auto_priority_witness :
    resizer_factory (fun _ => false) "auto" =
      Except.error (PyErr.valueError "No resizers available") :=
  (resizer_factory_auto_priority (fun _ => false)).2.2.1 rfl rfl

/-- C6: with an explicit (non-auto) mode, an unregistered name raises
TypeError (the spec taxonomy name UnknownModeError) and a registered but
unavailable backend raises ValueError (NoBackendAvailableError); the two
error kinds are distinct PyErr constructors, hence always
distinguishable. -/
theorem resizer_factory_explicit_mode_errors (avail : ResizerKind → Bool)
    (mode : String) (hmode : mode ≠ "auto") :
    (RESIZERS.lookup mode = none →
      resizer_factory avail mode =
        Except.error (PyErr.typeError ("unknown resize mode " ++ mode))) ∧
    (∀ k, RESIZERS.lookup mode = some k → avail k = false →
      resizer_factory avail mode =
        Except.error (PyErr.valueError ("mode " ++ mode ++ " not available"))) ∧
    (∀ k, RESIZERS.lookup mode = some k → avail k = true →
      resizer_factory avail mode = Except.ok k) ∧
    (∀ m1 m2, PyErr.typeError m1 ≠ PyErr.valueError m2) := by
  refine ⟨?_, ?_, ?_, ?_⟩
  · intro h
    simp [resizer_factory, hmode, h]
  · intro k h1 h2
    simp [resizer_factory, hmode, h1, h2]
  · intro k h1 h2
    simp [resizer_factory, hmode, h1, h2]
  · intro m1 m2 h
    cases h

theorem resizer_factory_explicit_mode_errors_witness :
    resizer_factory (fun _ => true) "nonsense" =
      Except.error (PyErr.typeError "unknown resize mode nonsense") :=
  (resizer_factory_explicit_mode_errors (fun _ => true) "nonsense"
    (by decide)).1 rfl

/-- C7: neither availability probe can raise — each is a total Boolean
function because its single except clause catches every error the
modelled subp can produce — and each returns true exactly when the
diagnostic command ran with an accepted exit code (0 for growpart help;
0 or 1 for gpart help) and its output carries the required signature
(an update-option match in growpart stdout, a recovery-subcommand match
in gpart stderr); every execution failure and every non-matching output
yields false. -/
theorem available_false_on_failure :
    (∀ o, growpart_available o = true ↔
      ∃ r, o = SubpOutcome.ran r ∧ r.rc = 0 ∧ hasUpdateFlag r.out = true) ∧
    (∀ o, gpart_available o = true ↔
      ∃ r, o = SubpOutcome.ran r ∧ (r.rc = 0 ∨ r.rc = 1) ∧
        hasRecoverSig r.err = true) := by
  constructor
  · intro o
    cases o with
    | execFail m => simp [growpart_available, subp_model]
    | ran r =>
      by_cases h : r.rc = 0
      · simp [growpart_available, subp_model, h]
      · simp [growpart_available, subp_model, h]
  · intro o
    cases o with
    | execFail m => simp [gpart_available, subp_model]
    | ran r =>
      by_cases h : r.rc = 0 ∨ r.rc = 1
      · simp [gpart_available, subp_model, h]
      · simp [gpart_available, subp_model, h]

theorem available_false_on_failure_witness :
    growpart_available (SubpOutcome.ran
      { rc := 0, out := "  -u, --update  update the partition table", err := "" }) = true :=
  (available_false_on_failure.1 _).mpr
    ⟨{ rc := 0, out := "  -u, --update  update the partition table", err := "" },
      rfl, rfl, rfl⟩

/-- C4: a growpart dry-run that exits with code 1 is not an error — the
resize returns (before, before) at once and the apply command never
appears in the trace, so the orchestrator, comparing equal sizes,
records NOCHANGE (last conjunct); a dry-run exit code that is neither 0
nor 1, or a dry-run that cannot be executed at all, raises
ResizeFailedException. -/
theorem growpart_dryrun_exit1_nochange :
    (∀ (w : GrowpartWorld) (diskdev partnum partdev out err : String),
      w.dryRun = SubpOutcome.ran { rc := 1, out := out, err := err } →
      growpart_resize w diskdev partnum partdev =
        (Except.ok (w.size1, w.size1),
         [TraceEv.sizeRead partdev w.size1,
          TraceEv.run ["growpart", "--dry-run", diskdev, partnum]]) ∧
      TraceEv.run ["growpart", diskdev, partnum] ∉
        (growpart_resize w diskdev partnum partdev).2) ∧
    (∀ (w : GrowpartWorld) (diskdev partnum partdev : String)
      (r0 : SubpResult), w.dryRun = SubpOutcome.ran r0 →
      r0.rc ≠ 0 → r0.rc ≠ 1 →
      (growpart_resize w diskdev partnum partdev).1 =
        Except.error (PyErr.resizeFailed
          ("Unexpected exit code " ++ toString r0.rc))) ∧
    (∀ (w : GrowpartWorld) (diskdev partnum partdev m : String),
      w.dryRun = SubpOutcome.execFail m →
      (growpart_resize w diskdev partnum partdev).1 =
        Except.error (PyErr.resizeFailed m)) ∧
    (∀ (env : SysEnv) (w : GrowpartWorld)
      (d blockdev disk ptnum out err : String),
      ResolvesTo env d blockdev disk ptnum →
      w.dryRun = SubpOutcome.ran { rc := 1, out := out, err := err } →
      resize_entry env (fun a b c => (growpart_resize w a b c).1) d =
        Except.ok (d, RESIZE.NOCHANGE,
          "no change necessary (" ++ disk ++ ", " ++ ptnum ++ ")")) := by
  refine ⟨?_, ?_, ?_, ?_⟩
  · intro w diskdev partnum partdev out err hdry
    have heq := growpart_resize_dryrun_exit1 w diskdev partnum partdev out err hdry
    refine ⟨heq, ?_⟩
    rw [heq]
    simp
  · intro w diskdev partnum partdev r0 hdry h0 h1
    simp [growpart_resize, subp_model, hdry, h0, h1]
  · intro w diskdev partnum partdev m hdry
    simp [growpart_resize, subp_model, hdry]
  · intro env w d blockdev disk ptnum out err hres hdry
    have heq := growpart_resize_dryrun_exit1 w disk ptnum blockdev out err hdry
    rw [resize_entry_resolved env (fun a b c => (growpart_resize w a b c).1)
      d blockdev disk ptnum hres]
    rw [heq]
    simp

theorem growpart_dryrun_exit1_nochange_witness :
    growpart_resize
      { size1 := 7, size2 := 7,
        dryRun := SubpOutcome.ran { rc := 1, out := "NOCHANGE", err := "" },
        applyRun := SubpOutcome.ran { rc := 0, out := "", err := "" } }
      "/dev/vda" "1" "/dev/vda1" =
      (Except.ok (7, 7),
       [TraceEv.sizeRead "/dev/vda1" 7,
        TraceEv.run ["growpart", "--dry-run", "/dev/vda", "1"]]) :=
  (growpart_dryrun_exit1_nochange.1
    { size1 := 7, size2 := 7,
      dryRun := SubpOutcome.ran { rc := 1, out := "NOCHANGE", err := "" },
      applyRun := SubpOutcome.ran { rc := 0, out := "", err := "" } }
    "/dev/vda" "1" "/dev/vda1" "NOCHANGE" "" rfl).1

/-- C8: the gpart protocol runs the whole-disk metadata-recovery command
first; a recovery failure (nonzero exit or unexecutable tool) raises
ResizeFailedException before any size is read or any resize command is
issued; otherwise the size is read, the resize command scoped to the
partition index on the disk path runs (its failure is fatal after the
size read), and on success the returned pair is the size read before
the resize and the size read after it, with the trace listing the steps
in exactly that order. -/
theorem gpart_resize_protocol_order :
    (∀ (w : GpartWorld) (diskdev partnum partdev : String)
      (r1 r2 : SubpResult),
      w.recoverRun = SubpOutcome.ran r1 → r1.rc = 0 →
      w.resizeRun = SubpOutcome.ran r2 → r2.rc = 0 →
      gpart_resize w diskdev partnum partdev =
        (Except.ok (w.size1, w.size2),
         [TraceEv.run ["gpart", "recover", diskdev],
          TraceEv.sizeRead partdev w.size1,
          TraceEv.run ["gpart", "resize", "-i", partnum, diskdev],
          TraceEv.sizeRead partdev w.size2])) ∧
    (∀ (w : GpartWorld) (diskdev partnum partdev : String)
      (r1 : SubpResult),
      w.recoverRun = SubpOutcome.ran r1 → r1.rc ≠ 0 →
      gpart_resize w diskdev partnum partdev =
        (Except.error (PyErr.resizeFailed
          ("Unexpected exit code " ++ toString r1.rc)),
         [TraceEv.run ["gpart", "recover", diskdev]])) ∧
    (∀ (w : GpartWorld) (diskdev partnum partdev m : String),
      w.recoverRun = SubpOutcome.execFail m →
      gpart_resize w diskdev partnum partdev =
        (Except.error (PyErr.resizeFailed m),
         [TraceEv.run ["gpart", "recover", diskdev]])) ∧
    (∀ (w : GpartWorld) (diskdev partnum partdev : String)
      (r1 r2 : SubpResult),
      w.recoverRun = SubpOutcome.ran r1 → r1.rc = 0 →
      w.resizeRun = SubpOutcome.ran r2 → r2.rc ≠ 0 →
      gpart_resize w diskdev partnum partdev =
        (Except.error (PyErr.resizeFailed
          ("Unexpected exit code " ++ toString r2.rc)),
         [TraceEv.run ["gpart", "recover", diskdev],
          TraceEv.sizeRead partdev w.size1,
          TraceEv.run ["gpart", "resize", "-i", partnum, diskdev]])) := by
  refine ⟨?_, ?_, ?_, ?_⟩
  · intro w diskdev partnum partdev r1 r2 hrec h1 hres h2
    simp [gpart_resize, gpart_resize_after_recover, subp_model,
      hrec, h1, hres, h2, pyErrMsg]
  · intro w diskdev partnum partdev r1 hrec h1
    simp [gpart_resize, subp_model, hrec, h1]
  · intro w diskdev partnum partdev m hrec
    simp [gpart_resize, subp_model, hrec]
  · intro w diskdev partnum partdev r1 r2 hrec h1 hres h2
    simp [gpart_resize, gpart_resize_after_recover, subp_model,
      hrec, h1, hres, h2, pyErrMsg]

theorem gpart_resize_protocol_order_witness :
    gpart_resize
      { recoverRun := SubpOutcome.ran { rc := 0, out := "", err := "" },
        resizeRun := SubpOutcome.ran { rc := 0, out := "", err := "" },
        size1 := 5, size2 := 9 }
      "/dev/da0" "1" "/dev/da0p1" =
      (Except.ok (5, 9),
       [TraceEv.run ["gpart", "recover", "/dev/da0"],
        TraceEv.sizeRead "/dev/da0p1" 5,
        TraceEv.run ["gpart", "resize", "-i", "1", "/dev/da0"],
        TraceEv.sizeRead "/dev/da0p1" 9]) :=
  gpart_resize_protocol_order.1
    { recoverRun := SubpOutcome.ran { rc := 0, out := "", err := "" },
      resizeRun := SubpOutcome.ran { rc := 0, out := "", err := "" },
      size1 := 5, size2 := 9 }
    "/dev/da0" "1" "/dev/da0p1"
    { rc := 0, out := "", err := "" } { rc := 0, out := "", err := "" }
    rfl rfl rfl rfl

theorem resize_devices_ok_fst (env : SysEnv)
    (resizer : String → String → String → Except PyErr (Nat × Nat)) :
    ∀ (devs : List String) (out : List (String × String × String)),
      resize_devices env resizer devs = Except.ok out →
      out.map Prod.fst = devs := by
  intro devs
  induction devs with
  | nil =>
    intro out h
    unfold resize_devices at h
    cases h
    rfl
  | cons d rest ih =>
    intro out h
    unfold resize_devices at h
    cases h1 : resize_entry env resizer d with
    | error e => rw [h1] at h; cases h
    | ok v =>
      rw [h1] at h
      cases h2 : resize_devices env resizer rest with
      | error e => rw [h2] at h; cases h
      | ok l =>
        rw [h2] at h
        cases h
        simp [List.map, ih l h2, resize_entry_fst env resizer d v h1]

/-- C1 (counterexample): a backend that reports a strictly smaller
after-size is not treated as FAILED — resize_devices records CHANGED
for it (and CHANGED differs from FAILED, second conjunct), silently
accepting the shrinking report. -/
theorem growpart_shrink_marked_changed :
    resize_devices linuxEnv (fun _ _ _ => Except.ok (10, 5)) ["/dev/vda1"] =
      Except.ok [("/dev/vda1", RESIZE.CHANGED,
        "changed (/dev/vda, 1) from 10 to 5")] ∧
    RESIZE.CHANGED ≠ RESIZE.FAILED := by
  constructor
  · rfl
  · decide

/-- C1 (amended): for a successful backend resize the orchestrator
classifies the outcome by equality alone — equal sizes yield NOCHANGE
and any unequal pair, including a strictly smaller after-size, yields
CHANGED with both sizes in the message; there is no after-at-least-
before validation and no result of a successful backend call is mapped
to FAILED. -/
theorem resize_outcome_decided_by_equality_only
    (env : SysEnv)
    (resizer : String → String → String → Except PyErr (Nat × Nat))
    (d blockdev disk ptnum : String) (old new : Nat)
    (hres : ResolvesTo env d blockdev disk ptnum)
    (hr : resizer disk ptnum blockdev = Except.ok (old, new)) :
    (old = new → resize_entry env resizer d =
      Except.ok (d, RESIZE.NOCHANGE,
        "no change necessary (" ++ disk ++ ", " ++ ptnum ++ ")")) ∧
    (old ≠ new → resize_entry env resizer d =
      Except.ok (d, RESIZE.CHANGED,
        "changed (" ++ disk ++ ", " ++ ptnum ++ ") from "
          ++ toString old ++ " to " ++ toString new)) := by
  rw [resize_entry_resolved env resizer d blockdev disk ptnum hres, hr]
  constructor
  · intro he
    simp [he]
  · intro he
    simp [he]

theorem resize_outcome_decided_by_equality_only_witness :
    resize_entry linuxEnv (fun _ _ _ => Except.ok (9, 4)) "/dev/vda1" =
      Except.ok ("/dev/vda1", RESIZE.CHANGED,
        "changed (/dev/vda, 1) from 9 to 4") :=
  (resize_outcome_decided_by_equality_only linuxEnv
    (fun _ _ _ => Except.ok (9, 4)) "/dev/vda1" "/dev/vda1" "/dev/vda" "1" 9 4
    ⟨rfl, ⟨{ isBlk := true, isChr := false }, rfl, Or.inl rfl⟩, rfl⟩
    rfl).2 (by decide)

/-- C3 (counterexample): on a FreeBSD system an entry whose partition
ordinal has two digits makes device_part_info raise AttributeError,
which resize_devices does not catch: the call returns an error rather
than a report, so no outcome record is produced for either input entry
and the second entry is never processed. -/
theorem resize_devices_abort_counterexample :
    resize_devices freebsdEnv (fun _ _ _ => Except.ok (10, 20))
      ["/dev/vtbd0p10", "/dev/vtbd0p1"] =
      Except.error (PyErr.attributeError
        "\x27NoneType\x27 object has no attribute \x27group\x27") := by
  rfl

/-- C3 (amended): whenever resize_devices returns a report, that report
has exactly one record per input entry in input order — the first
components list the entries themselves and record i is the result of
the loop body on entry i; an entry whose devent2dev raises ValueError yields a
SKIPPED record, a backend ResizeFailedException yields a FAILED record,
and an entry that yields any record never aborts the rest: the
remaining entries are processed and their records appended after it.
Only exception kinds no except clause catches abort the batch. -/
theorem resize_devices_report_shape :
    (∀ (env : SysEnv)
      (resizer : String → String → String → Except PyErr (Nat × Nat))
      (devs : List String) (out : List (String × String × String)),
      resize_devices env resizer devs = Except.ok out →
      out.map Prod.fst = devs ∧
      out.map Except.ok = devs.map (resize_entry env resizer)) ∧
    (∀ (env : SysEnv)
      (resizer : String → String → String → Except PyErr (Nat × Nat))
      (d m : String),
      devent2dev env d = Except.error (PyErr.valueError m) →
      resize_entry env resizer d =
        Except.ok (d, RESIZE.SKIPPED, "unable to convert to device: " ++ m)) ∧
    (∀ (env : SysEnv)
      (resizer : String → String → String → Except PyErr (Nat × Nat))
      (d blockdev disk ptnum m : String),
      ResolvesTo env d blockdev disk ptnum →
      resizer disk ptnum blockdev = Except.error (PyErr.resizeFailed m) →
      resize_entry env resizer d =
        Except.ok (d, RESIZE.FAILED,
          "failed to resize: disk=" ++ disk ++ ", ptnum=" ++ ptnum
            ++ ": " ++ m)) ∧
    (∀ (env : SysEnv)
      (resizer : String → String → String → Except PyErr (Nat × Nat))
      (d : String) (record : String × String × String) (rest : List String),
      resize_entry env resizer d = Except.ok record →
      resize_devices env resizer (d :: rest) =
        (resize_devices env resizer rest).map (fun l => record :: l)) := by
  refine ⟨?_, ?_, ?_, ?_⟩
  · intro env resizer devs out h
    exact ⟨resize_devices_ok_fst env resizer devs out h,
      resize_devices_ok_pointwise env resizer devs out h⟩
  · intro env resizer d m h
    simp [resize_entry, h]
  · intro env resizer d blockdev disk ptnum m hres hr
    rw [resize_entry_resolved env resizer d blockdev disk ptnum hres, hr]
  · intro env resizer d record rest h
    have hcons : resize_devices env resizer (d :: rest) =
        match resize_entry env resizer d with
        | Except.error e => Except.error e
        | Except.ok record =>
          match resize_devices env resizer rest with
          | Except.error e => Except.error e
          | Except.ok l => Except.ok (record :: l) := rfl
    rw [hcons, h]
    cases h2 : resize_devices env resizer rest <;> simp [Except.map]

theorem resize_devices_report_shape_witness :
    resize_entry linuxEnv (fun _ _ _ => Except.ok (1, 1)) "/nonexistent" =
      Except.ok ("/nonexistent", RESIZE.SKIPPED,
        "unable to convert to device: Could not determine device of \x27%s\x27 % dev_ent") :=
  resize_devices_report_shape.2.1 linuxEnv (fun _ _ _ => Except.ok (1, 1))
    "/nonexistent" "Could not determine device of \x27%s\x27 % dev_ent" rfl

/-- C9: on FreeBSD the partition-suffix regex accepts a single trailing
digit only, so for a device whose partition ordinal has two or more
digits — its second-to-last character is then itself a digit rather
than the p separator (hypothesis hdigit), and a device name never ends
in a newline (hypothesis hnl, which rules out the one case where the
dollar anchor would instead try the position before a final newline) —
the match is None and device_part_info raises AttributeError from
m.group; resize_devices catches only TypeError and ValueError around
device_part_info, so the AttributeError propagates and aborts the whole
batch (no report, no SKIPPED record, remaining entries unprocessed). -/
theorem freebsd_two_digit_partition_aborts_batch
    (env : SysEnv)
    (resizer : String → String → String → Except PyErr (Nat × Nat))
    (devent : String) (rest : List String) (st : StatRes)
    (hbsd : env.is_FreeBSD = true)
    (hdev : strStartsWith devent "/dev/" = true)
    (hstat : env.os_stat devent = Except.ok st)
    (hblk : st.isBlk = true ∨ st.isChr = true)
    (hdigit : (("/dev/" ++ env.find_freebsd_part devent).data.getD
        (("/dev/" ++ env.find_freebsd_part devent).data.length - 2)
        ' ').isDigit = true)
    (hnl : ("/dev/" ++ env.find_freebsd_part devent).data.getLast? ≠
        some '\n') :
    device_part_info env devent =
      Except.error (PyErr.attributeError
        "\x27NoneType\x27 object has no attribute \x27group\x27") ∧
    resize_devices env resizer (devent :: rest) =
      Except.error (PyErr.attributeError
        "\x27NoneType\x27 object has no attribute \x27group\x27") := by
  have hmatch := matchPartSuffix_none_of_digit 'p'
    ("/dev/" ++ env.find_freebsd_part devent) (by decide) hdigit hnl
  have hpi : device_part_info env devent =
      Except.error (PyErr.attributeError
        "\x27NoneType\x27 object has no attribute \x27group\x27") := by
    simp [device_part_info, hbsd, hmatch]
  refine ⟨hpi, ?_⟩
  have hdd : devent2dev env devent = Except.ok devent := by
    simp [devent2dev, hdev]
  have hb : (!st.isBlk && !st.isChr) = false := by
    rcases hblk with h | h <;> simp [h]
  have hentry : resize_entry env resizer devent =
      Except.error (PyErr.attributeError
        "\x27NoneType\x27 object has no attribute \x27group\x27") := by
    simp [resize_entry, hdd, hstat, hb, hpi]
  unfold resize_devices
  rw [hentry]

theorem freebsd_two_digit_partition_aborts_batch_witness :
    device_part_info freebsdEnv "/dev/vtbd0p10" =
      Except.error (PyErr.attributeError
        "\x27NoneType\x27 object has no attribute \x27group\x27") ∧
    resize_devices freebsdEnv (fun _ _ _ => Except.ok (3, 3))
      ["/dev/vtbd0p10"] =
      Except.error (PyErr.attributeError
        "\x27NoneType\x27 object has no attribute \x27group\x27") :=
  freebsd_two_digit_partition_aborts_batch freebsdEnv
    (fun _ _ _ => Except.ok (3, 3)) "/dev/vtbd0p10" []
    { isBlk := true, isChr := false } rfl rfl rfl (Or.inl rfl) rfl
    (by decide)
